import Mathlib

/-!
Shallow embedding of the orbit-js boundary bridge (`src/index.ts`).

The host side of the bridge is embedded as pure Lean functions over an
explicit `HostState` (module memory, cached views, allocation counter and
an event log of every allocator/entry-point interaction).  The wasm core,
the platform JSON parser, the text codecs and the filesystem are external
collaborators and are modelled as parameters (`CoreBehavior`, the
`parseErrorPayload` function, `FileSystem`), exactly as the spec scopes
them out.
-/

namespace OrbitJs

/-- Embeds `SLICE_STRUCT_SIZE` from the source: the 12-byte result-descriptor slot. -/
def SLICE_STRUCT_SIZE : Nat := 12

/-- Embeds `STATUS_OK` from the source. -/
def STATUS_OK : Int := 0

/-- Embeds `OrbitSlice` from the source: the `{ptr, len, cap}` slice descriptor. -/
structure OrbitSlice where
  ptr : Nat
  len : Nat
  cap : Nat
deriving DecidableEq, Repr

/-- Embeds `OrbitSpan` from the source. -/
structure OrbitSpan where
  start : Nat
  «end» : Nat
deriving DecidableEq, Repr

/-- Embeds `OrbitJsError` from the source: the structured error payload shape. -/
structure OrbitJsError where
  kind : String
  message : String
  span : OrbitSpan
deriving DecidableEq, Repr

/-- The display message built by the `OrbitError` constructor
(`super(detail.kind + ": " + detail.message)` in the source). -/
def orbitErrorMessage (detail : OrbitJsError) : String :=
  detail.kind ++ (": ") ++ detail.message

/-- The `name` field set by the `OrbitError` constructor. -/
def orbitErrorName (detail : OrbitJsError) : String :=
  ("Orbit") ++ detail.kind ++ ("Error")

/-- The JavaScript exceptions the bridge can throw, one constructor per
distinct error class appearing in the source: the typed `OrbitError`,
plain `Error(msg)`, `TypeError(msg)`, the `SyntaxError` thrown by
`JSON.parse` on an undecodable payload, and an exception propagating out
of the wasm entry-point call (a trap). -/
inductive JsError where
  | orbitError (detail : OrbitJsError)
  | error (msg : String)
  | typeError (msg : String)
  | jsonSyntaxError
  | entryTrap
deriving DecidableEq, Repr

/-- Whether an exception is an instance of the typed `OrbitError` class. -/
def JsError.isOrbitErr : JsError → Bool
  | JsError.orbitError _ => true
  | _ => false

/-- A JavaScript `ArrayBuffer` backing the wasm linear memory: `id` is the
object identity (compared by `!==` in the source), `data` the byte
contents. -/
structure JsBuffer where
  id : Nat
  data : List Nat
deriving DecidableEq, Repr

/-- One interaction with the core recorded for bookkeeping: a call to
`orbit_alloc`, a call to `orbit_dealloc`, or the entry-point call itself. -/
inductive HostEvent where
  | alloc (size ret : Nat)
  | dealloc (ptr len cap : Nat)
  | entryCall (inputPtr inputLen resultPtr : Nat)
deriving DecidableEq, Repr

/-- The mutable host-side state of an `OrbitCore` instance: the module's
current memory buffer, the two cached views (`cachedU8`, `cachedView`,
each recorded by the identity of the buffer it was built over), the
number of allocations performed so far, and the event log. -/
structure HostState where
  memory : JsBuffer
  cachedU8 : Option Nat
  cachedView : Option Nat
  allocCount : Nat
  log : List HostEvent
deriving DecidableEq, Repr

/-- Outcome of a wasm entry-point call: return a status code, or raise
(trap). -/
inductive EntryOutcome where
  | returns (status : Int)
  | raises
deriving DecidableEq, Repr

/-- The wasm core as an external collaborator: `alloc` maps the current
allocation count, the requested size and the current buffer to the
returned pointer and the (possibly grown, hence replaced) buffer;
`entry` maps the three call arguments and the current buffer to the
buffer after the call (the entry point writes the result descriptor and
payload into memory before returning or trapping) and the outcome. -/
structure CoreBehavior where
  alloc : Nat → Nat → JsBuffer → Nat × JsBuffer
  entry : Nat → Nat → Nat → JsBuffer → JsBuffer × EntryOutcome

/-- Little-endian 32-bit read at byte offset `p` (DataView `getUint32`
with `littleEndian = true`). -/
def getUint32LE (data : List Nat) (p : Nat) : Nat :=
  data.getD p 0 + 256 * data.getD (p + 1) 0 + 65536 * data.getD (p + 2) 0 +
    16777216 * data.getD (p + 3) 0

/-- Overwrite bytes of `data` starting at offset `ptr` with `bytes`
(Uint8Array `set`); writes falling outside the buffer are dropped. -/
def writeBytesAt : List Nat → Nat → List Nat → List Nat
  | [], _, _ => []
  | d :: ds, p + 1, bs => d :: writeBytesAt ds p bs
  | _ :: ds, 0, b :: bs => b :: writeBytesAt ds 0 bs
  | d :: ds, 0, [] => d :: ds

/-- The byte range `[ptr, ptr + len)` of a buffer (Uint8Array `slice`,
which copies). -/
def sliceBytes (data : List Nat) (ptr len : Nat) : List Nat :=
  (data.drop ptr).take len

/-- Embeds `orbit_alloc` as seen from the host: consults the core behaviour,
bumps the allocation counter, records the event, and adopts whatever
buffer the core now exposes (allocation may grow memory). -/
def orbit_alloc (B : CoreBehavior) (size : Nat) (st : HostState) : Nat × HostState :=
  ((B.alloc st.allocCount size st.memory).1,
   { st with
       memory := (B.alloc st.allocCount size st.memory).2
       allocCount := st.allocCount + 1
       log := st.log ++ [HostEvent.alloc size (B.alloc st.allocCount size st.memory).1] })

/-- Embeds `orbit_dealloc` as seen from the host: records the release event. -/
def orbit_dealloc (ptr len cap : Nat) (st : HostState) : HostState :=
  { st with log := st.log ++ [HostEvent.dealloc ptr len cap] }

/-- Embeds `getUint8Memory` from the source: return the cached byte view if its
backing buffer is still the module memory's current buffer, otherwise
build (and cache) a fresh view over the current buffer.  A view is
represented by the identity of the buffer it was built over. -/
def getUint8Memory (st : HostState) : Nat × HostState :=
  match st.cachedU8 with
  | none => (st.memory.id, { st with cachedU8 := some st.memory.id })
  | some i =>
    if i ≠ st.memory.id then
      (st.memory.id, { st with cachedU8 := some st.memory.id })
    else (i, st)

/-- Embeds `getDataView` from the source, same revalidation discipline for the
word-addressed view. -/
def getDataView (st : HostState) : Nat × HostState :=
  match st.cachedView with
  | none => (st.memory.id, { st with cachedView := some st.memory.id })
  | some i =>
    if i ≠ st.memory.id then
      (st.memory.id, { st with cachedView := some st.memory.id })
    else (i, st)

/-- Reading a 32-bit word through a view: sees the current memory only
if the view's backing buffer is still current (a view over a replaced
buffer is detached and reads nothing). -/
def viewGetUint32 (view p : Nat) (st : HostState) : Nat :=
  if view = st.memory.id then getUint32LE st.memory.data p else 0

/-- Copying `[lo, hi)` out through a byte view (Uint8Array `slice`). -/
def viewSlice (view lo hi : Nat) (st : HostState) : List Nat :=
  if view = st.memory.id then sliceBytes st.memory.data lo (hi - lo) else []

/-- Writing bytes through a byte view (Uint8Array `set`): lands in the
module memory only if the view's backing buffer is still current. -/
def viewSet (view : Nat) (bytes : List Nat) (ptr : Nat) (st : HostState) : HostState :=
  if view = st.memory.id then
    { st with memory := ⟨st.memory.id, writeBytesAt st.memory.data ptr bytes⟩ }
  else st

/-- Embeds `readSlice` from the source: interpret 12 bytes at `ptr` as the three
little-endian descriptor fields, via the (revalidated) DataView. -/
def readSlice (ptr : Nat) (st : HostState) : OrbitSlice × HostState :=
  match getDataView st with
  | (view, st1) =>
    (⟨viewGetUint32 view ptr st1, viewGetUint32 view (ptr + 4) st1,
      viewGetUint32 view (ptr + 8) st1⟩, st1)

/-- Embeds `copySlice` from the source: a zero-length descriptor yields an empty
host buffer; otherwise the referenced bytes are copied out through the
(revalidated) byte view. -/
def copySlice (slice : OrbitSlice) (st : HostState) : List Nat × HostState :=
  if slice.len = 0 then ([], st)
  else
    match getUint8Memory st with
    | (view, st1) => (viewSlice view slice.ptr (slice.ptr + slice.len) st1, st1)

/-- Embeds `freeBuffer` from the source: release a descriptor's buffer unless the
pointer is null. -/
def freeBuffer (slice : OrbitSlice) (st : HostState) : HostState :=
  if slice.ptr ≠ 0 then orbit_dealloc slice.ptr slice.len slice.cap st else st

/-- Embeds `freeInput` from the source: release the input buffer unless the
pointer is null. -/
def freeInput (slice : OrbitSlice) (st : HostState) : HostState :=
  if slice.ptr ≠ 0 then orbit_dealloc slice.ptr slice.len slice.cap st else st

/-- Embeds `writeInput` from the source: an absent or empty buffer yields the
zero descriptor without allocating; otherwise allocate, fail fatally on a
null pointer, write the bytes through a fresh byte view and return the
descriptor with `len = cap = length`. -/
def writeInput (B : CoreBehavior) (bytes : Option (List Nat)) (st : HostState) :
    (Except JsError OrbitSlice) × HostState :=
  match bytes with
  | none => (Except.ok ⟨0, 0, 0⟩, st)
  | some bs =>
    if bs.length = 0 then (Except.ok ⟨0, 0, 0⟩, st)
    else
      match orbit_alloc B bs.length st with
      | (ptr, st1) =>
        if ptr = 0 then
          (Except.error (JsError.error ("orbit wasm could not allocate input buffer")), st1)
        else
          match getUint8Memory st1 with
          | (view, st2) => (Except.ok ⟨ptr, bs.length, bs.length⟩, viewSet view bs ptr st2)

/-- The body of `invoke`'s `try` block: call the entry point (memory is
mutated whether or not it traps), and if it returned, read the result
descriptor, copy the payload out and release the result buffer. -/
def tryBody (B : CoreBehavior) (inputSlice : OrbitSlice) (resultSlicePtr : Nat)
    (st : HostState) : (Except JsError (Int × List Nat)) × HostState :=
  let st1 : HostState :=
    { st with
        memory := (B.entry inputSlice.ptr inputSlice.len resultSlicePtr st.memory).1
        log := st.log ++
          [HostEvent.entryCall inputSlice.ptr inputSlice.len resultSlicePtr] }
  match (B.entry inputSlice.ptr inputSlice.len resultSlicePtr st.memory).2 with
  | EntryOutcome.raises => (Except.error JsError.entryTrap, st1)
  | EntryOutcome.returns status =>
    ((Except.ok (status, (copySlice (readSlice resultSlicePtr st1).1
        (readSlice resultSlicePtr st1).2).1)),
     freeBuffer (readSlice resultSlicePtr st1).1
       (copySlice (readSlice resultSlicePtr st1).1 (readSlice resultSlicePtr st1).2).2)

/-- Embeds `invoke` from the source.  `parseErrorPayload` models the platform
`JSON.parse` applied to the UTF-8 decoded payload (`bytesToJson`): `none`
means it throws a `SyntaxError`.  `onOk` is the caller-supplied success
decoder (which may itself throw).  The `finally` block releases the
result-descriptor slot and the input buffer on every path out of the
`try`. -/
def invoke {T : Type} (B : CoreBehavior)
    (parseErrorPayload : List Nat → Option OrbitJsError)
    (onOk : List Nat → Except JsError T) (input : Option (List Nat))
    (st : HostState) : (Except JsError T) × HostState :=
  match writeInput B input st with
  | (Except.error e, st1) => (Except.error e, st1)
  | (Except.ok inputSlice, st1) =>
    match orbit_alloc B SLICE_STRUCT_SIZE st1 with
    | (resultSlicePtr, st2) =>
      if resultSlicePtr = 0 then
        (Except.error (JsError.error ("orbit wasm could not allocate result slice")),
          freeInput inputSlice st2)
      else
        match tryBody B inputSlice resultSlicePtr st2 with
        | (res, st3) =>
          let st4 := orbit_dealloc resultSlicePtr SLICE_STRUCT_SIZE SLICE_STRUCT_SIZE st3
          let st5 := freeInput inputSlice st4
          ((match res with
            | Except.error e => Except.error e
            | Except.ok sp =>
              if sp.1 = STATUS_OK then onOk sp.2
              else
                match parseErrorPayload sp.2 with
                | some detail => Except.error (JsError.orbitError detail)
                | none => Except.error JsError.jsonSyntaxError), st5)

/-- The descriptor stored at offset `p` of a buffer (what `readSlice`
decodes when its view is fresh). -/
def descriptorAt (data : List Nat) (p : Nat) : OrbitSlice :=
  ⟨getUint32LE data p, getUint32LE data (p + 4), getUint32LE data (p + 8)⟩

/-- The payload bytes a returning entry-point call hands back: the bytes
referenced by the descriptor it wrote at the result slot. -/
def payloadOf (buf : JsBuffer) (resultSlicePtr : Nat) : List Nat :=
  if (descriptorAt buf.data resultSlicePtr).len = 0 then []
  else sliceBytes buf.data (descriptorAt buf.data resultSlicePtr).ptr
    (descriptorAt buf.data resultSlicePtr).len

/-- Number of release events for a given buffer descriptor in a log. -/
def countDealloc (log : List HostEvent) (s : OrbitSlice) : Nat :=
  (log.filter (fun e => e = HostEvent.dealloc s.ptr s.len s.cap)).length

/-! ### Input Resolver (`resolveEvaluateInput`, `tryLoadFileInput`) -/

/-- The `node:fs` capability as an external collaborator: `urlParse`
models `new URL(trimmed)` on a `file:`-prefixed path (`none` = the URL
constructor throws), `existsSync` and `readFileSync` model the
filesystem probe and read (`Except.error` = the read throws).  The whole
probe body is wrapped in a `try`/`catch` returning `null` in the source. -/
structure FileSystem where
  urlParse : String → Option String
  existsSync : String → Bool
  readFileSync : String → String → Except Unit String

/-- Embeds `tryLoadFileInput` from the source: `none` when `nodeFs` is absent,
the trimmed path is empty, the URL constructor throws, the file does not
exist, or the read throws; otherwise the file contents. -/
def tryLoadFileInput (fs : Option FileSystem) (filePath : String)
    (encoding : String) : Option String :=
  match fs with
  | none => none
  | some f =>
    let trimmed := filePath.trim
    if trimmed.length = 0 then none
    else
      match (if trimmed.startsWith ("file:") then f.urlParse trimmed
             else some trimmed) with
      | none => none
      | some target =>
        if !(f.existsSync target) then none
        else
          match f.readFileSync target encoding with
          | Except.error _ => none
          | Except.ok contents => some contents

/-- Embeds `OrbitEvaluateInput` from the source: a plain string, or an options
object with optional `source`, `filePath` and `encoding` fields. -/
inductive EvaluateInput where
  | str (s : String)
  | options (source : Option String) (filePath : Option String)
      (encoding : Option String)
deriving DecidableEq, Repr

/-- JavaScript truthiness of the optional `filePath` field: present and
non-empty. -/
def truthyStr : Option String → Bool
  | some s => s ≠ ""
  | none => false

/-- Embeds `resolveEvaluateInput` from the source. -/
def resolveEvaluateInput (fs : Option FileSystem) (input : EvaluateInput) :
    Except JsError String :=
  match input with
  | EvaluateInput.str s => Except.ok ((tryLoadFileInput fs s ("utf8")).getD s)
  | EvaluateInput.options src fp enc =>
    match src with
    | some s => Except.ok s
    | none =>
      if truthyStr fp then
        let p := fp.getD ""
        match tryLoadFileInput fs p (enc.getD ("utf8")) with
        | some contents => Except.ok contents
        | none =>
          match fs with
          | none =>
            Except.error (JsError.error
              ("orbit.evaluate cannot read file paths in this environment"))
          | some _ =>
            Except.error (JsError.error
              ("orbit.evaluate could not read from file path: " ++ p))
      else
        Except.error (JsError.typeError
          ("orbit.evaluate requires a source string or options with filePath."))

/-- Embeds `evaluate` from the source, up to the boundary call: resolve the
effective source text, then hand its encoding to `invoke`.  `utf8Encode`
models the platform `TextEncoder`; `encodeString` maps the empty string
to an absent input, as in the source. -/
def encodeString (utf8Encode : String → List Nat) (value : String) :
    Option (List Nat) :=
  if value.length = 0 then none else some (utf8Encode value)

/-- The `evaluate` method: `resolveEvaluateInput` runs first, and any
exception it throws propagates before any boundary call is made. -/
def evaluate (B : CoreBehavior)
    (parseErrorPayload : List Nat → Option OrbitJsError)
    (utf8Encode : String → List Nat)
    (onOk : List Nat → Except JsError (List Nat))
    (fs : Option FileSystem) (input : EvaluateInput) (st : HostState) :
    (Except JsError (List Nat)) × HostState :=
  match resolveEvaluateInput fs input with
  | Except.error e => (Except.error e, st)
  | Except.ok source =>
    invoke B parseErrorPayload onOk (encodeString utf8Encode source) st

/-! ### Instantiation Strategy (`instantiateOrbit`, `validateExports`,
`createOrbit`) -/

/-- The value of one module export, as far as `validateExports`
distinguishes them: a `WebAssembly.Memory`, a function, or anything
else. -/
inductive ExportVal where
  | memory
  | fn
  | other
deriving DecidableEq, Repr

/-- An instantiated module's export object. -/
def Exports := List (String × ExportVal)

/-- Property lookup (`key in exports` / `exports.memory`). -/
def lookupExport (e : Exports) (key : String) : Option ExportVal :=
  match e.find? (fun kv => kv.1 = key) with
  | some kv => some kv.2
  | none => none

/-- The `required` list from `validateExports`, in source order. -/
def requiredExports : List String :=
  [("memory"), ("orbit_alloc"), ("orbit_dealloc"), ("orbit_version"),
   ("orbit_parse"), ("orbit_parse_with_recovery"), ("orbit_evaluate"),
   ("orbit_evaluate_ast"), ("orbit_value_to_json"), ("orbit_value_to_yaml"),
   ("orbit_value_to_msgpack")]

/-- Embeds `validateExports` from the source: throw on the first required export
missing from the object, then throw if the `memory` export is not a
`WebAssembly.Memory`. -/
def validateExports (e : Exports) : Except JsError Unit :=
  match requiredExports.find? (fun key => (lookupExport e key).isNone) with
  | some key =>
    Except.error (JsError.error
      (("orbit wasm is missing required export: ") ++ key))
  | none =>
    if lookupExport e ("memory") = some ExportVal.memory then Except.ok ()
    else
      Except.error (JsError.error
        ("orbit wasm did not export a WebAssembly.Memory"))

/-- A constructed `OrbitCore` instance (through which every boundary call
is made). -/
structure OrbitCoreHandle where
  exports : Exports

/-- Embeds `createOrbit` from the source, with instantiation abstracted to the
export object it produced: validation runs before the `OrbitCore` is
constructed, so a validation failure yields no instance. -/
def createOrbit (instanceExports : Exports) : Except JsError OrbitCoreHandle :=
  match validateExports instanceExports with
  | Except.error e => Except.error e
  | Except.ok _ => Except.ok ⟨instanceExports⟩

/-- Embeds `OrbitInitOptions` from the source: each field optional; payloads are
abstracted (a hook id, a module object id, raw bytes, a location). -/
structure InitOptions where
  binary : Option (List Nat)
  moduleObj : Option Nat
  url : Option String
  instantiateHook : Option Nat
deriving DecidableEq, Repr

/-- The module source actually used by `instantiateOrbit`, as a tagged
variant. -/
inductive ResolvedSource where
  | viaHook (h : Nat)
  | viaModule (m : Nat)
  | viaBinary (b : List Nat)
  | viaLoad (url : Option String)
deriving DecidableEq, Repr

/-- Field access on the possibly-absent options object (`options?.x`). -/
def optField {α β : Type} (o : Option α) (f : α → Option β) : Option β :=
  match o with
  | none => none
  | some x => f x

/-- Embeds `instantiateOrbit` from the source, reduced to which instantiation
source it commits to: the early-return cascade over `options?.instantiate`,
`options?.module`, `options?.binary`, then the location load. -/
def instantiateOrbit (o : Option InitOptions) : ResolvedSource :=
  match optField o InitOptions.instantiateHook with
  | some h => ResolvedSource.viaHook h
  | none =>
    match optField o InitOptions.moduleObj with
    | some m => ResolvedSource.viaModule m
    | none =>
      match optField o InitOptions.binary with
      | some b => ResolvedSource.viaBinary b
      | none => ResolvedSource.viaLoad (optField o InitOptions.url)

/-- Modelled from the spec (section 4.6): the instantiation source as "the
first present option in the fixed priority list hook, module, bytes,
location-load", stated independently of the source's early-return
cascade, for the refinement proof. -/
def specResolveSource (o : Option InitOptions) : ResolvedSource :=
  (([(optField o InitOptions.instantiateHook).map ResolvedSource.viaHook,
     (optField o InitOptions.moduleObj).map ResolvedSource.viaModule,
     (optField o InitOptions.binary).map ResolvedSource.viaBinary].reduceOption).head?).getD
    (ResolvedSource.viaLoad (optField o InitOptions.url))

/-! ### Concrete fixtures used by counterexamples and witnesses -/

/-- A memory image whose result slot at offset 4 holds the descriptor
`⟨300, 4, 4⟩` (little-endian words 300, 4, 4 at offsets 4, 8, 12). -/
def demoData : List Nat :=
  [0, 0, 0, 0, 44, 1, 0, 0, 4, 0, 0, 0, 4, 0, 0, 0]

/-- Buffer with identity 0 over `demoData`. -/
def demoBuffer : JsBuffer := ⟨0, demoData⟩

/-- A memory image whose result slot at offset 4 holds the descriptor
`⟨16, 2, 2⟩`, with payload bytes `[33, 34]` at offset 16. -/
def demoOkData : List Nat :=
  [0, 0, 0, 0, 16, 0, 0, 0, 2, 0, 0, 0, 2, 0, 0, 0, 33, 34]

/-- Buffer with identity 0 over `demoOkData`. -/
def demoOkBuffer : JsBuffer := ⟨0, demoOkData⟩

/-- A core whose allocator always returns pointer 4, and whose entry
point writes `demoBuffer` (descriptor `⟨300, 4, 4⟩` at offset 4) and
then traps. -/
def trapCore : CoreBehavior :=
  ⟨fun _ _ buf => (4, buf),
   fun _ _ _ _ => (demoBuffer, EntryOutcome.raises)⟩

/-- A core whose allocator always returns pointer 4, and whose entry
point writes `demoOkBuffer` and returns the given status. -/
def okCore (status : Int) : CoreBehavior :=
  ⟨fun _ _ buf => (4, buf),
   fun _ _ _ _ => (demoOkBuffer, EntryOutcome.returns status)⟩

/-- A core whose allocator returns 100 first and 0 afterwards (so the
result-descriptor slot allocation fails after the input buffer was
written). -/
def slotFailCore : CoreBehavior :=
  ⟨fun count _ buf => (if count = 0 then 100 else 0, buf),
   fun _ _ _ _ => (demoBuffer, EntryOutcome.returns 0)⟩

/-- A core whose allocator always returns pointer 2, over an 8-byte
memory, for exercising `writeInput` byte placement. -/
def byteCore : CoreBehavior :=
  ⟨fun _ _ buf => (2, buf),
   fun _ _ _ _ => (demoBuffer, EntryOutcome.returns 0)⟩

/-- Fresh host state over an 8-byte zeroed buffer. -/
def byteState : HostState := ⟨⟨0, [0, 0, 0, 0, 0, 0, 0, 0]⟩, none, none, 0, []⟩

/-- Fresh host state over `demoBuffer`. -/
def demoState : HostState := ⟨demoBuffer, none, none, 0, []⟩

/-- Fresh host state over `demoOkBuffer`. -/
def demoOkState : HostState := ⟨demoOkBuffer, none, none, 0, []⟩

/-- A sample structured error detail. -/
def demoDetail : OrbitJsError := ⟨("Parse"), ("boom"), ⟨1, 3⟩⟩

/-- A payload parser recognizing exactly the payload `[33, 34]` as
`demoDetail`. -/
def demoParse : List Nat → Option OrbitJsError :=
  fun bs => if bs = [33, 34] then some demoDetail else none

/-! ### Helper lemmas: memory bridge -/

theorem getUint8Memory_eq (st : HostState) :
    getUint8Memory st = (st.memory.id, { st with cachedU8 := some st.memory.id }) := by
  unfold getUint8Memory
  cases h : st.cachedU8 with
  | none => rfl
  | some i =>
    by_cases hi : i = st.memory.id
    · subst hi
      simp only [ne_eq, not_true_eq_false, if_neg, ite_false, not_false_eq_true]
      cases st with
      | mk m u v a l => simp_all
    · simp [hi]

theorem getDataView_eq (st : HostState) :
    getDataView st = (st.memory.id, { st with cachedView := some st.memory.id }) := by
  unfold getDataView
  cases h : st.cachedView with
  | none => rfl
  | some i =>
    by_cases hi : i = st.memory.id
    · subst hi
      simp only [ne_eq, not_true_eq_false, if_neg, ite_false, not_false_eq_true]
      cases st with
      | mk m u v a l => simp_all
    · simp [hi]

theorem readSlice_eq (ptr : Nat) (st : HostState) :
    readSlice ptr st =
      (descriptorAt st.memory.data ptr, { st with cachedView := some st.memory.id }) := by
  unfold readSlice
  rw [getDataView_eq]
  simp [viewGetUint32, descriptorAt]

theorem copySlice_zero (slice : OrbitSlice) (st : HostState) (h : slice.len = 0) :
    copySlice slice st = ([], st) := by
  unfold copySlice
  simp [h]

theorem copySlice_pos (slice : OrbitSlice) (st : HostState) (h : slice.len ≠ 0) :
    copySlice slice st =
      (sliceBytes st.memory.data slice.ptr slice.len,
       { st with cachedU8 := some st.memory.id }) := by
  unfold copySlice
  rw [if_neg h, getUint8Memory_eq]
  simp [viewSlice, sliceBytes]

/-! ### Helper lemmas: `writeInput` and `orbit_alloc` -/

theorem writeInput_none_eq (B : CoreBehavior) (st : HostState) :
    writeInput B none st = (Except.ok ⟨0, 0, 0⟩, st) := rfl

theorem writeInput_nil_eq (B : CoreBehavior) (st : HostState) :
    writeInput B (some []) st = (Except.ok ⟨0, 0, 0⟩, st) := rfl

theorem writeInput_pos_eq (B : CoreBehavior) (bs : List Nat) (st : HostState)
    (p : Nat) (buf : JsBuffer) (hbs : bs.length ≠ 0)
    (hAl : B.alloc st.allocCount bs.length st.memory = (p, buf)) (hp : p ≠ 0) :
    writeInput B (some bs) st =
      (Except.ok ⟨p, bs.length, bs.length⟩,
       { memory := ⟨buf.id, writeBytesAt buf.data p bs⟩
         cachedU8 := some buf.id
         cachedView := st.cachedView
         allocCount := st.allocCount + 1
         log := st.log ++ [HostEvent.alloc bs.length p] }) := by
  simp only [writeInput, orbit_alloc]
  rw [hAl]
  simp only [if_neg hbs, if_neg hp, getUint8Memory_eq]
  simp [viewSet, hp]

theorem writeInput_allocFail_eq (B : CoreBehavior) (bs : List Nat)
    (st : HostState) (buf : JsBuffer) (hbs : bs.length ≠ 0)
    (hAl : B.alloc st.allocCount bs.length st.memory = (0, buf)) :
    writeInput B (some bs) st =
      (Except.error (JsError.error ("orbit wasm could not allocate input buffer")),
       { st with
           memory := buf
           allocCount := st.allocCount + 1
           log := st.log ++ [HostEvent.alloc bs.length 0] }) := by
  simp only [writeInput, orbit_alloc]
  rw [hAl]
  simp only [if_neg hbs]
  simp

theorem orbit_alloc_log (B : CoreBehavior) (size : Nat) (st : HostState)
    (p : Nat) (st' : HostState) (h : orbit_alloc B size st = (p, st')) :
    st'.log = st.log ++ [HostEvent.alloc size p] := by
  unfold orbit_alloc at h
  injection h with h1 h2
  subst h1
  subst h2
  rfl

theorem writeInput_ok_log (B : CoreBehavior) (input : Option (List Nat))
    (st : HostState) (islice : OrbitSlice) (st1 : HostState)
    (hW : writeInput B input st = (Except.ok islice, st1)) :
    st1.log = st.log ∨ ∃ sz p, st1.log = st.log ++ [HostEvent.alloc sz p] := by
  cases input with
  | none =>
    rw [writeInput_none_eq] at hW
    injection hW with h1 h2
    left
    rw [← h2]
  | some bs =>
    by_cases hbs : bs.length = 0
    · unfold writeInput at hW
      dsimp only at hW
      rw [if_pos hbs] at hW
      injection hW with h1 h2
      left
      rw [← h2]
    · rcases hal : B.alloc st.allocCount bs.length st.memory with ⟨p, buf⟩
      by_cases hp : p = 0
      · subst hp
        rw [writeInput_allocFail_eq B bs st buf hbs hal] at hW
        simp at hW
      · rw [writeInput_pos_eq B bs st p buf hbs hal hp] at hW
        injection hW with h1 h2
        right
        exact ⟨bs.length, p, by rw [← h2]⟩

/-! ### Helper lemmas: `invoke` path characterizations -/

theorem invoke_allocFail_eq {T : Type} (B : CoreBehavior)
    (pe : List Nat → Option OrbitJsError) (onOk : List Nat → Except JsError T)
    (input : Option (List Nat)) (st st1 st2 : HostState) (islice : OrbitSlice)
    (hW : writeInput B input st = (Except.ok islice, st1))
    (hA : orbit_alloc B SLICE_STRUCT_SIZE st1 = (0, st2)) :
    invoke B pe onOk input st =
      (Except.error (JsError.error ("orbit wasm could not allocate result slice")),
       freeInput islice st2) := by
  unfold invoke
  rw [hW]
  dsimp only
  rw [hA]
  simp

theorem invoke_raises_eq {T : Type} (B : CoreBehavior)
    (pe : List Nat → Option OrbitJsError) (onOk : List Nat → Except JsError T)
    (input : Option (List Nat)) (st st1 st2 : HostState) (islice : OrbitSlice)
    (rp : Nat) (buf : JsBuffer)
    (hW : writeInput B input st = (Except.ok islice, st1))
    (hA : orbit_alloc B SLICE_STRUCT_SIZE st1 = (rp, st2))
    (hrp : rp ≠ 0)
    (hE : B.entry islice.ptr islice.len rp st2.memory = (buf, EntryOutcome.raises)) :
    invoke B pe onOk input st =
      (Except.error JsError.entryTrap,
       freeInput islice (orbit_dealloc rp SLICE_STRUCT_SIZE SLICE_STRUCT_SIZE
         { st2 with
             memory := buf
             log := st2.log ++ [HostEvent.entryCall islice.ptr islice.len rp] })) := by
  unfold invoke tryBody
  rw [hW]
  dsimp only
  rw [hA]
  dsimp only
  rw [if_neg hrp, hE]

theorem invoke_returns_fst {T : Type} (B : CoreBehavior)
    (pe : List Nat → Option OrbitJsError) (onOk : List Nat → Except JsError T)
    (input : Option (List Nat)) (st st1 st2 : HostState) (islice : OrbitSlice)
    (rp : Nat) (buf : JsBuffer) (status : Int)
    (hW : writeInput B input st = (Except.ok islice, st1))
    (hA : orbit_alloc B SLICE_STRUCT_SIZE st1 = (rp, st2))
    (hrp : rp ≠ 0)
    (hE : B.entry islice.ptr islice.len rp st2.memory =
      (buf, EntryOutcome.returns status)) :
    (invoke B pe onOk input st).1 =
      (if status = STATUS_OK then onOk (payloadOf buf rp)
       else
         match pe (payloadOf buf rp) with
         | some detail => Except.error (JsError.orbitError detail)
         | none => Except.error JsError.jsonSyntaxError) := by
  unfold invoke tryBody
  rw [hW]
  dsimp only
  rw [hA]
  dsimp only
  rw [if_neg hrp, hE]
  dsimp only
  rw [readSlice_eq]
  dsimp only
  by_cases h0 : (descriptorAt buf.data rp).len = 0
  · rw [copySlice_zero _ _ h0]
    simp [payloadOf, h0]
  · rw [copySlice_pos _ _ h0]
    simp [payloadOf, h0]

theorem invoke_raises_log {T : Type} (B : CoreBehavior)
    (pe : List Nat → Option OrbitJsError) (onOk : List Nat → Except JsError T)
    (input : Option (List Nat)) (st st1 st2 : HostState) (islice : OrbitSlice)
    (rp : Nat) (buf : JsBuffer)
    (hW : writeInput B input st = (Except.ok islice, st1))
    (hA : orbit_alloc B SLICE_STRUCT_SIZE st1 = (rp, st2))
    (hrp : rp ≠ 0)
    (hE : B.entry islice.ptr islice.len rp st2.memory = (buf, EntryOutcome.raises)) :
    (invoke B pe onOk input st).2.log =
      st2.log ++ [HostEvent.entryCall islice.ptr islice.len rp] ++
        [HostEvent.dealloc rp SLICE_STRUCT_SIZE SLICE_STRUCT_SIZE] ++
        (if islice.ptr ≠ 0 then
          [HostEvent.dealloc islice.ptr islice.len islice.cap] else []) := by
  rw [invoke_raises_eq B pe onOk input st st1 st2 islice rp buf hW hA hrp hE]
  by_cases hi : islice.ptr = 0
  · simp [freeInput, orbit_dealloc, hi]
  · simp [freeInput, orbit_dealloc, hi, List.append_assoc]

theorem invoke_returns_log {T : Type} (B : CoreBehavior)
    (pe : List Nat → Option OrbitJsError) (onOk : List Nat → Except JsError T)
    (input : Option (List Nat)) (st st1 st2 : HostState) (islice : OrbitSlice)
    (rp : Nat) (buf : JsBuffer) (status : Int)
    (hW : writeInput B input st = (Except.ok islice, st1))
    (hA : orbit_alloc B SLICE_STRUCT_SIZE st1 = (rp, st2))
    (hrp : rp ≠ 0)
    (hE : B.entry islice.ptr islice.len rp st2.memory =
      (buf, EntryOutcome.returns status)) :
    (invoke B pe onOk input st).2.log =
      st2.log ++ [HostEvent.entryCall islice.ptr islice.len rp] ++
        (if (descriptorAt buf.data rp).ptr ≠ 0 then
          [HostEvent.dealloc (descriptorAt buf.data rp).ptr
            (descriptorAt buf.data rp).len (descriptorAt buf.data rp).cap]
         else []) ++
        [HostEvent.dealloc rp SLICE_STRUCT_SIZE SLICE_STRUCT_SIZE] ++
        (if islice.ptr ≠ 0 then
          [HostEvent.dealloc islice.ptr islice.len islice.cap] else []) := by
  unfold invoke tryBody
  rw [hW]
  dsimp only
  rw [hA]
  dsimp only
  rw [if_neg hrp, hE]
  dsimp only
  rw [readSlice_eq]
  dsimp only
  by_cases h0 : (descriptorAt buf.data rp).len = 0
  · rw [copySlice_zero _ _ h0]
    by_cases hd : (descriptorAt buf.data rp).ptr = 0 <;>
      by_cases hi : islice.ptr = 0 <;>
      simp_all [freeBuffer, freeInput, orbit_dealloc, List.append_assoc]
  · rw [copySlice_pos _ _ h0]
    by_cases hd : (descriptorAt buf.data rp).ptr = 0 <;>
      by_cases hi : islice.ptr = 0 <;>
      simp_all [freeBuffer, freeInput, orbit_dealloc, List.append_assoc]

/-! ### Helper lemmas: release counting -/

theorem countDealloc_append (l1 l2 : List HostEvent) (s : OrbitSlice) :
    countDealloc (l1 ++ l2) s = countDealloc l1 s + countDealloc l2 s := by
  simp [countDealloc, List.filter_append]

theorem countDealloc_alloc (sz p : Nat) (s : OrbitSlice) :
    countDealloc [HostEvent.alloc sz p] s = 0 := by
  simp [countDealloc]

theorem countDealloc_entryCall (a b c : Nat) (s : OrbitSlice) :
    countDealloc [HostEvent.entryCall a b c] s = 0 := by
  simp [countDealloc]

theorem countDealloc_dealloc_self (s : OrbitSlice) :
    countDealloc [HostEvent.dealloc s.ptr s.len s.cap] s = 1 := by
  simp [countDealloc]

theorem countDealloc_dealloc_ne (a b c : Nat) (s : OrbitSlice)
    (h : (⟨a, b, c⟩ : OrbitSlice) ≠ s) :
    countDealloc [HostEvent.dealloc a b c] s = 0 := by
  have hne : ¬(HostEvent.dealloc a b c = HostEvent.dealloc s.ptr s.len s.cap) := by
    intro hc
    apply h
    cases s
    injection hc with h1 h2 h3
    subst h1; subst h2; subst h3
    rfl
  simp [countDealloc, hne]

/-- Bytes written by `writeBytesAt` can be read back as long as the write
stays in bounds. -/
theorem sliceBytes_writeBytesAt :
    ∀ (data : List Nat) (p : Nat) (bs : List Nat),
      p + bs.length ≤ data.length →
      sliceBytes (writeBytesAt data p bs) p bs.length = bs
  | [], _, bs, h => by
    cases bs with
    | nil => simp [writeBytesAt, sliceBytes]
    | cons b tl => simp at h
  | _ :: _, 0, [], _ => by simp [writeBytesAt, sliceBytes]
  | _ :: ds, 0, b :: bs, h => by
    have ih := sliceBytes_writeBytesAt ds 0 bs (by simp at h ⊢; omega)
    simp only [sliceBytes, List.drop_zero] at ih ⊢
    simp [writeBytesAt, ih]
  | _ :: ds, p + 1, bs, h => by
    have ih := sliceBytes_writeBytesAt ds p bs (by simp at h ⊢; omega)
    simp only [sliceBytes] at ih ⊢
    simp [writeBytesAt, List.drop_succ_cons, ih]

/-! ## Claims -/

/-- C8: writing an input through the slice codec: an absent or empty byte
buffer yields the zero descriptor without invoking the allocator (state,
log and allocation counter unchanged); a non-empty buffer of `n` bytes
performs exactly one allocation of `n` bytes, writes the raw bytes at the
returned pointer, and yields the descriptor `⟨ptr, n, n⟩`.  Copying out a
descriptor of length 0 yields the zero-length host buffer with no memory
access; otherwise it yields a host-owned copy of exactly the referenced
byte range of the current module memory. -/
theorem C8_slice_codec_write_copy (B : CoreBehavior) (st : HostState)
    (bs : List Nat) (p : Nat) (buf : JsBuffer) (q c : Nat) (s : OrbitSlice) :
    writeInput B none st = (Except.ok ⟨0, 0, 0⟩, st) ∧
    writeInput B (some []) st = (Except.ok ⟨0, 0, 0⟩, st) ∧
    (bs.length ≠ 0 →
      B.alloc st.allocCount bs.length st.memory = (p, buf) →
      p ≠ 0 →
      p + bs.length ≤ buf.data.length →
      (writeInput B (some bs) st).1 = Except.ok ⟨p, bs.length, bs.length⟩ ∧
      (writeInput B (some bs) st).2.log = st.log ++ [HostEvent.alloc bs.length p] ∧
      sliceBytes (writeInput B (some bs) st).2.memory.data p bs.length = bs) ∧
    copySlice ⟨q, 0, c⟩ st = ([], st) ∧
    (s.len ≠ 0 →
      (copySlice s st).1 = sliceBytes st.memory.data s.ptr s.len) := by
  refine ⟨writeInput_none_eq B st, writeInput_nil_eq B st, ?_, copySlice_zero _ _ rfl, ?_⟩
  · intro hbs hAl hp hbound
    rw [writeInput_pos_eq B bs st p buf hbs hAl hp]
    exact ⟨rfl, rfl, sliceBytes_writeBytesAt buf.data p bs hbound⟩
  · intro hs
    rw [copySlice_pos s st hs]

/-- Witness for C8: over an 8-byte zeroed memory with an allocator
returning pointer 2, writing `[7, 9]` allocates once and places the
bytes at offset 2, readable back by the slice codec. -/
theorem C8_slice_codec_write_copy_witness :
    (writeInput byteCore (some [7, 9]) byteState).1 = Except.ok ⟨2, 2, 2⟩ ∧
    (writeInput byteCore (some [7, 9]) byteState).2.log = [HostEvent.alloc 2 2] ∧
    sliceBytes (writeInput byteCore (some [7, 9]) byteState).2.memory.data 2 2 = [7, 9] := by
  have h := (C8_slice_codec_write_copy byteCore byteState [7, 9] 2
    ⟨0, [0, 0, 0, 0, 0, 0, 0, 0]⟩ 0 0 ⟨0, 0, 0⟩).2.2.1
    (by decide) (by decide) (by decide) (by decide)
  simpa using h

/-- C9: every raw memory access goes through a view revalidated against
the current buffer identity: the byte view and word view returned by the
getters are always over the current buffer and are re-cached as such; a
cache hit returns the state unchanged; and the values produced by
`readSlice`, `copySlice` and a `writeInput`-style byte write are those of
the current buffer regardless of what stale view was cached. -/
theorem C9_views_revalidated (st : HostState) (p : Nat) (s : OrbitSlice)
    (bytes : List Nat) :
    (getUint8Memory st).1 = st.memory.id ∧
    (getDataView st).1 = st.memory.id ∧
    (getUint8Memory st).2.cachedU8 = some st.memory.id ∧
    (getDataView st).2.cachedView = some st.memory.id ∧
    (getUint8Memory st).2.memory = st.memory ∧
    (getDataView st).2.memory = st.memory ∧
    getUint8Memory { st with cachedU8 := some st.memory.id } =
      (st.memory.id, { st with cachedU8 := some st.memory.id }) ∧
    getDataView { st with cachedView := some st.memory.id } =
      (st.memory.id, { st with cachedView := some st.memory.id }) ∧
    (readSlice p st).1 = descriptorAt st.memory.data p ∧
    (copySlice s st).1 =
      (if s.len = 0 then [] else sliceBytes st.memory.data s.ptr s.len) ∧
    viewSet (getUint8Memory st).1 bytes p (getUint8Memory st).2 =
      { (getUint8Memory st).2 with
          memory := ⟨st.memory.id, writeBytesAt st.memory.data p bytes⟩ } := by
  refine ⟨by simp [getUint8Memory_eq], by simp [getDataView_eq],
    by simp [getUint8Memory_eq], by simp [getDataView_eq],
    by simp [getUint8Memory_eq], by simp [getDataView_eq],
    by simp [getUint8Memory_eq], by simp [getDataView_eq],
    by simp [readSlice_eq], ?_, by simp [getUint8Memory_eq, viewSet]⟩
  by_cases h : s.len = 0
  · rw [copySlice_zero s st h]
    simp [h]
  · rw [copySlice_pos s st h]
    simp [h]

/-- C1 (counterexample): with a core whose entry point writes the result
descriptor `⟨300, 4, 4⟩` into the slot at pointer 4 and then traps, the
call exits through the exception path and the result buffer `⟨300, 4, 4⟩`
is released zero times, not exactly once: the release of the result
buffer is not unconditional. -/
theorem C1_trap_skips_result_buffer_release :
    (invoke trapCore demoParse Except.ok none demoState).1 =
      Except.error JsError.entryTrap ∧
    descriptorAt demoBuffer.data 4 = ⟨300, 4, 4⟩ ∧
    countDealloc (invoke trapCore demoParse Except.ok none demoState).2.log
      ⟨300, 4, 4⟩ = 0 := by
  refine ⟨rfl, rfl, rfl⟩

/-- C1 (amended): the buffer referenced by the result descriptor is
released exactly once on every exit path on which the entry-point call
returns (normally, with any status, and when the descriptor's pointer is
non-null); on the paths where the entry-point call raises, the result
buffer is not released (only the result-descriptor slot and the input
buffer are, by the `finally` block). -/
theorem C1_result_buffer_release_discipline {T : Type} (B : CoreBehavior)
    (pe : List Nat → Option OrbitJsError) (onOk : List Nat → Except JsError T)
    (input : Option (List Nat)) (st st1 st2 : HostState) (islice : OrbitSlice)
    (rp : Nat) (buf : JsBuffer) (outcome : EntryOutcome) (rs : OrbitSlice)
    (hW : writeInput B input st = (Except.ok islice, st1))
    (hA : orbit_alloc B SLICE_STRUCT_SIZE st1 = (rp, st2))
    (hrp : rp ≠ 0)
    (hE : B.entry islice.ptr islice.len rp st2.memory = (buf, outcome))
    (hrs : rs = descriptorAt buf.data rp)
    (hne1 : rs ≠ (⟨rp, SLICE_STRUCT_SIZE, SLICE_STRUCT_SIZE⟩ : OrbitSlice))
    (hne2 : rs ≠ islice) :
    countDealloc (invoke B pe onOk input st).2.log rs =
      countDealloc st.log rs +
        (match outcome with
         | EntryOutcome.returns _ => if rs.ptr ≠ 0 then 1 else 0
         | EntryOutcome.raises => 0) := by
  subst hrs
  have h1 : countDealloc st1.log (descriptorAt buf.data rp) =
      countDealloc st.log (descriptorAt buf.data rp) := by
    rcases writeInput_ok_log B input st islice st1 hW with h | ⟨sz, q, h⟩
    · rw [h]
    · rw [h, countDealloc_append, countDealloc_alloc]
      omega
  have h2 : countDealloc st2.log (descriptorAt buf.data rp) =
      countDealloc st.log (descriptorAt buf.data rp) := by
    rw [orbit_alloc_log B SLICE_STRUCT_SIZE st1 rp st2 hA,
      countDealloc_append, countDealloc_alloc, h1]
    omega
  have hni : countDealloc
      (if islice.ptr ≠ 0 then
        [HostEvent.dealloc islice.ptr islice.len islice.cap] else [])
      (descriptorAt buf.data rp) = 0 := by
    by_cases hi : islice.ptr = 0
    · simp [hi, countDealloc]
    · rw [if_pos hi]
      refine countDealloc_dealloc_ne _ _ _ _ ?_
      intro hc
      apply hne2
      rw [← hc]
  have hns : countDealloc
      [HostEvent.dealloc rp SLICE_STRUCT_SIZE SLICE_STRUCT_SIZE]
      (descriptorAt buf.data rp) = 0 := by
    refine countDealloc_dealloc_ne _ _ _ _ ?_
    intro hc
    apply hne1
    rw [← hc]
  cases outcome with
  | raises =>
    rw [invoke_raises_log B pe onOk input st st1 st2 islice rp buf hW hA hrp hE]
    simp only [countDealloc_append, countDealloc_entryCall, hns, hni, h2]
  | returns status =>
    rw [invoke_returns_log B pe onOk input st st1 st2 islice rp buf status hW hA hrp hE]
    by_cases hd : (descriptorAt buf.data rp).ptr = 0
    · have hcond : ¬((descriptorAt buf.data rp).ptr ≠ 0) := by simp [hd]
      rw [if_neg hcond]
      simp only [List.append_nil, countDealloc_append, countDealloc_entryCall,
        hns, hni, h2]
      simp [hd]
    · rw [if_pos hd]
      simp only [countDealloc_append, countDealloc_entryCall, hns, hni, h2,
        countDealloc_dealloc_self]
      simp [hd]

/-- Witness for C1's amended theorem: a call whose entry point returns
status 0 and writes the descriptor `⟨16, 2, 2⟩` releases that result
buffer exactly once. -/
theorem C1_result_buffer_release_discipline_witness :
    countDealloc
      (invoke (okCore 0) demoParse Except.ok none demoOkState).2.log
      ⟨16, 2, 2⟩ = 1 := by
  have h := C1_result_buffer_release_discipline (okCore 0) demoParse Except.ok
    none demoOkState demoOkState
    ⟨demoOkBuffer, none, none, 1, [HostEvent.alloc 12 4]⟩
    ⟨0, 0, 0⟩ 4 demoOkBuffer (EntryOutcome.returns 0) ⟨16, 2, 2⟩
    rfl rfl (by decide) rfl (by decide) (by decide) (by decide)
  simpa using h

/-- C2: on every exit path of a boundary call (success, non-zero status,
entry-point exception, and slot-allocation failure), the result-descriptor
slot and the (allocated, non-null) input buffer are released before
`invoke` returns or propagates; in particular when the result-descriptor
slot allocation returns the null pointer, the input buffer is released and
the fatal host error is the value propagated. -/
theorem C2_slot_and_input_always_released {T : Type} (B : CoreBehavior)
    (pe : List Nat → Option OrbitJsError) (onOk : List Nat → Except JsError T)
    (input : Option (List Nat)) (st st1 st2 : HostState) (islice : OrbitSlice)
    (rp : Nat)
    (hW : writeInput B input st = (Except.ok islice, st1))
    (hA : orbit_alloc B SLICE_STRUCT_SIZE st1 = (rp, st2)) :
    (rp = 0 →
      invoke B pe onOk input st =
        (Except.error (JsError.error ("orbit wasm could not allocate result slice")),
         freeInput islice st2) ∧
      (islice.ptr ≠ 0 →
        HostEvent.dealloc islice.ptr islice.len islice.cap ∈
          (invoke B pe onOk input st).2.log)) ∧
    (rp ≠ 0 →
      HostEvent.dealloc rp SLICE_STRUCT_SIZE SLICE_STRUCT_SIZE ∈
        (invoke B pe onOk input st).2.log ∧
      (islice.ptr ≠ 0 →
        HostEvent.dealloc islice.ptr islice.len islice.cap ∈
          (invoke B pe onOk input st).2.log)) := by
  constructor
  · intro h0
    subst h0
    have he := invoke_allocFail_eq B pe onOk input st st1 st2 islice hW hA
    refine ⟨he, ?_⟩
    intro hi
    rw [he]
    simp [freeInput, orbit_dealloc, hi]
  · intro hrp
    rcases hEp : B.entry islice.ptr islice.len rp st2.memory with ⟨buf, outcome⟩
    have hE : B.entry islice.ptr islice.len rp st2.memory = (buf, outcome) := hEp
    cases outcome with
    | raises =>
      rw [invoke_raises_log B pe onOk input st st1 st2 islice rp buf hW hA hrp hE]
      constructor
      · simp
      · intro hi
        simp [hi]
    | returns status =>
      rw [invoke_returns_log B pe onOk input st st1 st2 islice rp buf status hW hA hrp hE]
      constructor
      · simp
      · intro hi
        simp [hi]

/-- Witness for C2: when the slot allocation fails (null pointer) after a
1-byte input was written at pointer 100, the input buffer's release is in
the log and the fatal host error is returned. -/
theorem C2_slot_and_input_always_released_witness :
    HostEvent.dealloc 100 1 1 ∈
      (invoke slotFailCore demoParse Except.ok (some [9]) demoState).2.log ∧
    (invoke slotFailCore demoParse Except.ok (some [9]) demoState).1 =
      Except.error (JsError.error ("orbit wasm could not allocate result slice")) := by
  have h := (C2_slot_and_input_always_released slotFailCore demoParse Except.ok
    (some [9]) demoState
    ⟨⟨0, demoData⟩, some 0, none, 1, [HostEvent.alloc 1 100]⟩
    ⟨⟨0, demoData⟩, some 0, none, 2, [HostEvent.alloc 1 100, HostEvent.alloc 12 0]⟩
    ⟨100, 1, 1⟩ 0 rfl rfl).1 rfl
  exact ⟨h.2 (by decide), by rw [h.1]⟩

/-- C3: when the entry point returns a non-zero status and the payload
decodes to a structured error `detail`, `invoke` raises the typed
`OrbitError` carrying exactly that `detail` (kind, message and span are
the decoded payload's fields), whose display message is
`kind ++ ": " ++ message`; when the status is 0, the payload is decoded
by the caller-supplied decoder and returned as the value. -/
theorem C3_status_to_error_mapping {T : Type} (B : CoreBehavior)
    (pe : List Nat → Option OrbitJsError) (onOk : List Nat → Except JsError T)
    (input : Option (List Nat)) (st st1 st2 : HostState) (islice : OrbitSlice)
    (rp : Nat) (buf : JsBuffer) (status : Int) (detail : OrbitJsError)
    (hW : writeInput B input st = (Except.ok islice, st1))
    (hA : orbit_alloc B SLICE_STRUCT_SIZE st1 = (rp, st2))
    (hrp : rp ≠ 0)
    (hE : B.entry islice.ptr islice.len rp st2.memory =
      (buf, EntryOutcome.returns status)) :
    (status ≠ 0 → pe (payloadOf buf rp) = some detail →
      (invoke B pe onOk input st).1 =
        Except.error (JsError.orbitError detail) ∧
      orbitErrorMessage detail = detail.kind ++ (": ") ++ detail.message ∧
      orbitErrorName detail = ("Orbit") ++ detail.kind ++ ("Error")) ∧
    (status = 0 →
      (invoke B pe onOk input st).1 = onOk (payloadOf buf rp)) := by
  have h := invoke_returns_fst B pe onOk input st st1 st2 islice rp buf status
    hW hA hrp hE
  constructor
  · intro hs hpe
    rw [h, if_neg (by simpa [STATUS_OK] using hs), hpe]
    exact ⟨rfl, rfl, rfl⟩
  · intro hs
    rw [h, if_pos (by simpa [STATUS_OK] using hs)]

/-- Witness for C3: a call returning status 7 whose payload `[33, 34]`
decodes to `demoDetail` raises the typed error with that exact detail. -/
theorem C3_status_to_error_mapping_witness :
    (invoke (okCore 7) demoParse Except.ok none demoOkState).1 =
      Except.error (JsError.orbitError demoDetail) ∧
    orbitErrorMessage demoDetail = ("Parse: boom") := by
  have h := (C3_status_to_error_mapping (okCore 7) demoParse Except.ok none
    demoOkState demoOkState
    ⟨demoOkBuffer, none, none, 1, [HostEvent.alloc 12 4]⟩
    ⟨0, 0, 0⟩ 4 demoOkBuffer 7 demoDetail
    rfl rfl (by decide) rfl).1 (by decide) (by decide)
  refine ⟨h.1, ?_⟩
  rw [h.2.1]
  rfl

/-- C4: when the entry point returns a non-zero status but the payload
cannot be decoded (the platform JSON parser throws), the exception
propagated by `invoke` is the parser's `SyntaxError`, a fatal host-side
error that is not an instance of the typed `OrbitError` class. -/
theorem C4_malformed_error_payload {T : Type} (B : CoreBehavior)
    (pe : List Nat → Option OrbitJsError) (onOk : List Nat → Except JsError T)
    (input : Option (List Nat)) (st st1 st2 : HostState) (islice : OrbitSlice)
    (rp : Nat) (buf : JsBuffer) (status : Int)
    (hW : writeInput B input st = (Except.ok islice, st1))
    (hA : orbit_alloc B SLICE_STRUCT_SIZE st1 = (rp, st2))
    (hrp : rp ≠ 0)
    (hE : B.entry islice.ptr islice.len rp st2.memory =
      (buf, EntryOutcome.returns status))
    (hs : status ≠ 0)
    (hpe : pe (payloadOf buf rp) = none) :
    (invoke B pe onOk input st).1 = Except.error JsError.jsonSyntaxError ∧
    JsError.jsonSyntaxError.isOrbitErr = false ∧
    (∀ detail, JsError.jsonSyntaxError ≠ JsError.orbitError detail) := by
  have h := invoke_returns_fst B pe onOk input st st1 st2 islice rp buf status
    hW hA hrp hE
  refine ⟨?_, rfl, fun detail hc => by cases hc⟩
  rw [h, if_neg (by simpa [STATUS_OK] using hs), hpe]

/-- Witness for C4: a call returning status 7 with a payload no parser
accepts propagates the `SyntaxError`, not an `OrbitError`. -/
theorem C4_malformed_error_payload_witness :
    (invoke (okCore 7) (fun _ => none) Except.ok none demoOkState).1 =
      Except.error JsError.jsonSyntaxError ∧
    JsError.jsonSyntaxError.isOrbitErr = false := by
  have h := C4_malformed_error_payload (okCore 7) (fun _ => none) Except.ok none
    demoOkState demoOkState
    ⟨demoOkBuffer, none, none, 1, [HostEvent.alloc 12 4]⟩
    ⟨0, 0, 0⟩ 4 demoOkBuffer 7
    rfl rfl (by decide) rfl (by decide) rfl
  exact ⟨h.1, h.2.1⟩

/-- C5: for `evaluate` with a structured options object: a present
`source` string is the effective source for the boundary call and no
filesystem state is consulted (the result is the same for every
filesystem, including when `filePath` is also present); a present
non-empty `filePath` whose probe fails yields the fatal host error (the
capability message without `node:fs`, the could-not-read message with
it), not a fallback to literal source; absent both fields, `evaluate`
throws the argument-shape `TypeError`. -/
theorem C5_evaluate_options_resolution (B : CoreBehavior)
    (pe : List Nat → Option OrbitJsError) (enc : String → List Nat)
    (onOk : List Nat → Except JsError (List Nat)) (fs : Option FileSystem)
    (src p : String) (fp : Option String) (e : Option String) (st : HostState) :
    (evaluate B pe enc onOk fs (EvaluateInput.options (some src) fp e) st =
      invoke B pe onOk (encodeString enc src) st) ∧
    (p ≠ ("") → tryLoadFileInput fs p (e.getD ("utf8")) = none →
      evaluate B pe enc onOk fs (EvaluateInput.options none (some p) e) st =
        (Except.error (JsError.error
          (match fs with
           | none => ("orbit.evaluate cannot read file paths in this environment")
           | some _ => ("orbit.evaluate could not read from file path: ") ++ p)),
         st)) ∧
    (evaluate B pe enc onOk fs (EvaluateInput.options none none e) st =
      (Except.error (JsError.typeError
        ("orbit.evaluate requires a source string or options with filePath.")),
       st)) := by
  refine ⟨rfl, ?_, rfl⟩
  intro hp hload
  cases fs with
  | none => simp [evaluate, resolveEvaluateInput, truthyStr, hp, hload]
  | some f => simp [evaluate, resolveEvaluateInput, truthyStr, hp, hload]

/-- Witness for C5: in an environment without `node:fs`, evaluating
options with only `filePath := "x"` throws the capability error. -/
theorem C5_evaluate_options_resolution_witness :
    evaluate byteCore demoParse (fun _ => []) Except.ok none
      (EvaluateInput.options none (some ("x")) none) demoState =
      (Except.error (JsError.error
        ("orbit.evaluate cannot read file paths in this environment")),
       demoState) := by
  have h := (C5_evaluate_options_resolution byteCore demoParse (fun _ => [])
    Except.ok none ("") ("x") none none demoState).2.1 (by decide) rfl
  exact h

/-- C10: an options object whose `filePath` is the empty string (and no
`source`) is treated like an absent `filePath`: `evaluate` throws the
argument-shape `TypeError`, not the could-not-read fatal error, in every
environment including those with local-file access. -/
theorem C10_empty_filePath_shape_error (B : CoreBehavior)
    (pe : List Nat → Option OrbitJsError) (enc : String → List Nat)
    (onOk : List Nat → Except JsError (List Nat)) (fs : Option FileSystem)
    (e : Option String) (st : HostState) :
    evaluate B pe enc onOk fs (EvaluateInput.options none (some ("")) e) st =
      (Except.error (JsError.typeError
        ("orbit.evaluate requires a source string or options with filePath.")),
       st) := by
  simp [evaluate, resolveEvaluateInput, truthyStr]

/-- C6: `createOrbit` rejects, with a fatal validation error and without
constructing an `OrbitCore` instance, every module whose exports are
missing any required entry point or whose `memory` export is not a
`WebAssembly.Memory`. -/
theorem C6_validation_rejects_bad_exports (e : Exports)
    (h : (∃ k, k ∈ requiredExports ∧ lookupExport e k = none) ∨
         lookupExport e ("memory") ≠ some ExportVal.memory) :
    ∃ msg, createOrbit e = Except.error (JsError.error msg) := by
  unfold createOrbit validateExports
  rcases hf : requiredExports.find? (fun key => (lookupExport e key).isNone) with _ | k
  · have hall := List.find?_eq_none.mp hf
    have hmem : ¬(lookupExport e ("memory")) = some ExportVal.memory := by
      rcases h with ⟨k2, hk2, hnone⟩ | h2
      · have := hall k2 hk2
        simp [hnone] at this
      · exact h2
    dsimp only
    rw [if_neg hmem]
    exact ⟨_, rfl⟩
  · exact ⟨_, rfl⟩

/-- Witness for C6: an empty export object (missing `memory` and every
entry point) is rejected. -/
theorem C6_validation_rejects_bad_exports_witness :
    ∃ msg, createOrbit [] = Except.error (JsError.error msg) :=
  C6_validation_rejects_bad_exports []
    (Or.inl ⟨("memory"), by decide, rfl⟩)

/-- C7: the module source is resolved by the single ordered decision
procedure with fixed precedence (caller-supplied instantiate hook, then
precompiled module, then raw bytes, then location load): the source's
early-return cascade equals the spec's "first present option in the
priority list" formulation for every configuration. -/
theorem C7_instantiation_source_precedence (o : Option InitOptions) :
    instantiateOrbit o = specResolveSource o := by
  cases o with
  | none => rfl
  | some opts =>
    rcases opts with ⟨b, m, u, i⟩
    cases i <;> cases m <;> cases b <;>
      simp [instantiateOrbit, specResolveSource, optField, List.reduceOption]

end OrbitJs
